import Mathlib

/-!
Verification development for the whatsapp-notifier repository.

The TypeScript sources are shallowly embedded as pure Lean functions:
the Prisma-backed store becomes an explicit `Store` value threaded through
every repository operation, wall-clock time becomes an `Int` millisecond
parameter, and fallible database calls return `Except String Store`
(Prisma's `update` throws when the row is absent).  External effects
(the WhatsApp send, injected database faults) are parameters.
-/

/-- Delivery states, from the `notification_status` Postgres enum in
`infrastructure/database/schema.sql` (also the Prisma `NotificationStatus`). -/
inductive NotificationStatus where
  | queued
  | processing
  | sent
  | delivered
  | read
  | failed
  | rate_limited
  | scheduled
  deriving DecidableEq, Repr

/-- Priorities, from the `notification_priority` enum. -/
inductive NotificationPriority where
  | high
  | normal
  | low
  deriving DecidableEq, Repr

/-- Template payload (`templateMessageSchema` in notification.schema.ts);
the ordered parameter list is opaque to every operation modelled here and is
elided. -/
structure TemplateMessage where
  name : String
  language : String
  deriving DecidableEq, Repr

/-- Free-text payload (`textMessageSchema`). -/
structure TextMessage where
  text : String
  deriving DecidableEq, Repr

/-- A row of the `notifications` table (Prisma model `Notification`).
Timestamps are epoch milliseconds. -/
structure Notification where
  id : String
  tenantId : String
  eventType : String
  recipientPhone : String
  recipientCountryCode : Option String := none
  template : Option TemplateMessage := none
  message : Option TextMessage := none
  priority : NotificationPriority := NotificationPriority.normal
  status : NotificationStatus := NotificationStatus.queued
  whatsappMessageId : Option String := none
  scheduledFor : Option Int := none
  sentAt : Option Int := none
  deliveredAt : Option Int := none
  readAt : Option Int := none
  failedAt : Option Int := none
  attemptNumber : Nat := 0
  maxAttempts : Nat := 5
  nextRetryAt : Option Int := none
  errorCode : Option String := none
  errorMessage : Option String := none
  traceId : String := ""
  deriving DecidableEq, Repr

/-- A row of the append-only `delivery_logs` table.  The raw
`apiResponse` JSON snapshot is opaque to all modelled operations and elided. -/
structure DeliveryLog where
  notificationId : String
  attemptNumber : Nat
  status : NotificationStatus
  whatsappMessageId : Option String := none
  errorCode : Option String := none
  errorMessage : Option String := none
  responseTimeMs : Option Int := none
  deriving DecidableEq, Repr

/-- A row of the `rate_limits` table (Prisma model `RateLimit`). -/
structure RateLimit where
  recipientPhone : String
  windowStart : Int
  windowEnd : Int
  messageCount : Nat
  deriving DecidableEq, Repr

/-- The relational store: the three tables the dispatch pipeline touches. -/
structure Store where
  notifications : List Notification := []
  deliveryLogs : List DeliveryLog := []
  rateLimits : List RateLimit := []
  deriving DecidableEq, Repr

/-- Input record of `NotificationRepository.create`
(`CreateNotificationData` in notification.repository.ts). -/
structure CreateNotificationData where
  id : String
  tenantId : String
  eventType : String
  recipientPhone : String
  recipientCountryCode : Option String := none
  template : Option TemplateMessage := none
  message : Option TextMessage := none
  priority : NotificationPriority := NotificationPriority.normal
  scheduledFor : Option Int := none
  traceId : String
  deriving DecidableEq, Repr

/-- `NotificationRepository.create`: inserts a row whose `status` is
hard-coded to `queued`, `attemptNumber` 0, `maxAttempts` 5
(notification.repository.ts lines 39-58). -/
def NotificationRepository.create (d : CreateNotificationData) (s : Store) :
    Notification × Store :=
  let n : Notification := {
    id := d.id
    tenantId := d.tenantId
    eventType := d.eventType
    recipientPhone := d.recipientPhone
    recipientCountryCode := d.recipientCountryCode
    template := d.template
    message := d.message
    priority := d.priority
    scheduledFor := d.scheduledFor
    traceId := d.traceId
    status := NotificationStatus.queued
    attemptNumber := 0
    maxAttempts := 5 }
  (n, { s with notifications := s.notifications ++ [n] })

/-- `NotificationRepository.findById`: `prisma.notification.findUnique`
on the primary key `id` (notification.repository.ts lines 63-73). -/
def NotificationRepository.findById (id : String) (s : Store) :
    Option Notification :=
  s.notifications.find? (fun n => n.id == id)

/-- The optional column patch accepted by `updateStatus`; a `none` field is
absent from the Prisma `data` object and leaves the column untouched. -/
structure StatusUpdates where
  whatsappMessageId : Option String := none
  errorCode : Option String := none
  errorMessage : Option String := none
  sentAt : Option Int := none
  deliveredAt : Option Int := none
  readAt : Option Int := none
  failedAt : Option Int := none
  deriving DecidableEq, Repr

/-- Column-wise merge of a `StatusUpdates` patch into a row, together with the
unconditional `status` write performed by `updateStatus`. -/
def applyStatusUpdates (n : Notification) (status : NotificationStatus)
    (u : StatusUpdates) : Notification :=
  { n with
    status := status
    whatsappMessageId := match u.whatsappMessageId with
      | some w => some w
      | none => n.whatsappMessageId
    errorCode := match u.errorCode with
      | some w => some w
      | none => n.errorCode
    errorMessage := match u.errorMessage with
      | some w => some w
      | none => n.errorMessage
    sentAt := match u.sentAt with
      | some t => some t
      | none => n.sentAt
    deliveredAt := match u.deliveredAt with
      | some t => some t
      | none => n.deliveredAt
    readAt := match u.readAt with
      | some t => some t
      | none => n.readAt
    failedAt := match u.failedAt with
      | some t => some t
      | none => n.failedAt }

/-- `NotificationRepository.updateStatus`: `prisma.notification.update` writes
`{status, ...updates}` on the row with the given id, with no precondition on
the current state; Prisma throws when the row is absent
(notification.repository.ts lines 111-131). -/
def NotificationRepository.updateStatus (id : String)
    (status : NotificationStatus) (u : StatusUpdates) (s : Store) :
    Except String Store :=
  if s.notifications.any (fun n => n.id == id) then
    Except.ok { s with notifications :=
      s.notifications.map (fun n =>
        if n.id == id then applyStatusUpdates n status u else n) }
  else
    Except.error "Record to update not found."

/-- `NotificationRepository.incrementAttempt`: atomic
`attemptNumber += 1` plus the `nextRetryAt` column write; an `undefined`
`nextRetryAt` argument is skipped by Prisma
(notification.repository.ts lines 136-144). -/
def NotificationRepository.incrementAttempt (id : String)
    (nextRetryAt : Option Int) (s : Store) : Except String Store :=
  if s.notifications.any (fun n => n.id == id) then
    Except.ok { s with notifications :=
      s.notifications.map (fun n =>
        if n.id == id then
          { n with
            attemptNumber := n.attemptNumber + 1
            nextRetryAt := match nextRetryAt with
              | some t => some t
              | none => n.nextRetryAt }
        else n) }
  else
    Except.error "Record to update not found."

/-- The `where` clause of `NotificationRepository.findReadyForRetry`:
state failed, retry due, attempt budget remaining
(notification.repository.ts lines 149-159). -/
def readyForRetry (now : Int) (n : Notification) : Bool :=
  n.status == NotificationStatus.failed
    && (match n.nextRetryAt with
        | some t => t ≤ now
        | none => false)
    && n.attemptNumber < n.maxAttempts

/-- `DeliveryLogRepository.create`: append-only insert. -/
def DeliveryLogRepository.create (log : DeliveryLog) (s : Store) : Store :=
  { s with deliveryLogs := s.deliveryLogs ++ [log] }

/-- One hour in milliseconds (`60 * 60 * 1000`). -/
def oneHourMs : Int := 3600000

/-- `RateLimitRepository.checkLimit`: sums `messageCount` over this
recipient's windows with `windowEnd > now` and `windowStart > now − 1h`,
and admits when the sum is strictly below the limit
(rate-limit repository, `checkLimit`). -/
def RateLimitRepository.checkLimit (recipientPhone : String)
    (limitPerHour : Nat) (now : Int) (s : Store) : Bool :=
  let oneHourAgo := now - oneHourMs
  let currentCount :=
    ((s.rateLimits.filter (fun w =>
        w.recipientPhone == recipientPhone
          && decide (w.windowEnd > now)
          && decide (w.windowStart > oneHourAgo))).map
      (fun w => w.messageCount)).sum
  decide (currentCount < limitPerHour)

/-- Start of the hour containing `t`, as computed by
`new Date(y, m, d, h)` in `RateLimitRepository.increment`. -/
def hourFloor (t : Int) : Int := t - t % oneHourMs

/-- Increment the first window matching the recipient and window start. -/
def bumpFirstWindow (recipientPhone : String) (windowStart : Int) :
    List RateLimit → List RateLimit
  | [] => []
  | w :: ws =>
    if w.recipientPhone == recipientPhone && w.windowStart == windowStart then
      { w with messageCount := w.messageCount + 1 } :: ws
    else
      w :: bumpFirstWindow recipientPhone windowStart ws

/-- `RateLimitRepository.increment`: upsert on the current hour-aligned
window — `findFirst` then either `update` of that row or `create` with
count 1 (rate-limit repository, `increment`). -/
def RateLimitRepository.increment (recipientPhone : String) (now : Int)
    (s : Store) : Store :=
  let windowStart := hourFloor now
  let windowEnd := windowStart + oneHourMs
  match s.rateLimits.find? (fun w =>
      w.recipientPhone == recipientPhone && w.windowStart == windowStart) with
  | some _ =>
    { s with rateLimits := bumpFirstWindow recipientPhone windowStart s.rateLimits }
  | none =>
    { s with rateLimits := s.rateLimits ++
        [{ recipientPhone := recipientPhone
           windowStart := windowStart
           windowEnd := windowEnd
           messageCount := 1 }] }

/-- Error value observed by the worker: an axios error with an optional HTTP
response (absent on network errors) carrying an optional WhatsApp error code
(whatsapp.client.ts `isRetryableError`). -/
structure WAErrorInfo where
  responseStatus : Option Nat := none
  errorCode : Option Nat := none
  message : String := ""
  deriving DecidableEq, Repr

/-- `WhatsAppClient.isRetryableError`: network errors, the HTTP statuses
408/429/500/502/503/504, and the provider codes 1, 2, 4, 80007 are
retryable; everything else is not (whatsapp.client.ts lines 155-178). -/
def WhatsAppClient.isRetryableError (e : WAErrorInfo) : Bool :=
  match e.responseStatus with
  | none => true
  | some status =>
    if ([408, 429, 500, 502, 503, 504] : List Nat).contains status then
      true
    else
      ([1, 2, 4, 80007] : List Nat).contains (e.errorCode.getD 0)

/-- Retry delay as written in the specification for attempt counter `k`
(the attempt that just failed): `min(base * 2^k + jitter, max_delay)` with
base 1 s and max_delay 3600 s, taking the attempt ordinal `n = k + 1` that
the processor passes to `calculateRetryDelay`. -/
def specRetryDelay (n : Nat) (jitter : Int) : Int :=
  min (1000 * 2 ^ (n - 1) + jitter) 3600000

/-- Jitter within ±25% of the exponential term `base * 2^(n-1)`. -/
def specJitterWithin (n : Nat) (jitter : Int) : Prop :=
  4 * |jitter| ≤ 1000 * 2 ^ (n - 1)

/-- What the repository's own unit tests (`calculateRetryDelay` suite)
require of a retry-delay function: exact doubling values from a 1 s base
for attempts 1-4, a cap of 60000 ms observed at attempt 10, and a
positive result at 0. -/
def satisfiesRetryUnitTests (f : Nat → Int) : Prop :=
  f 1 = 1000 ∧ f 2 = 2000 ∧ f 3 = 4000 ∧ f 4 = 8000 ∧
    f 10 ≤ 60000 ∧ 0 < f 0

/-- Modelled from the spec: the implementation of `calculateRetryDelay`
(`utils/retry.ts`) is missing from the repository sources; only its unit
tests and its call site in the message processor are present.  The spec's
formula (base · 2^k + jitter, capped at 3600 s) is inconsistent with those
unit tests, which pin `1000 · 2^(n−1)` ms exactly for n = 1..4 and a
60000 ms cap at n = 10, so this model follows the unit tests. -/
def calculateRetryDelay (n : Nat) : Int :=
  min (1000 * 2 ^ (n - 1)) 60000

/-- The work-item payload placed on the queue and parsed by the processor
(`SQSMessagePayload`); the opaque `metadata` blob is elided. -/
structure SQSMessagePayload where
  id : String
  event_type : String := ""
  phone_number : String := ""
  country_code : Option String := none
  template : Option TemplateMessage := none
  message : Option TextMessage := none
  priority : NotificationPriority := NotificationPriority.normal
  attempt_number : Nat := 0
  max_attempts : Nat := 5
  scheduled_for : Option Int := none
  trace_id : String := ""
  tenant_id : String := ""
  deriving DecidableEq, Repr

/-- A thrown database error reaches `handleError` through the processor's
catch block as a plain error without an HTTP response. -/
def dbErrorInfo (msg : String) : WAErrorInfo :=
  { responseStatus := none, errorCode := none, message := msg }

/-- `MessageProcessor.handleError` (message processor, lines 102-159):
always appends a failed delivery-log row; when the error is retryable and
`attempt_number + 1 < max_attempts` it writes state failed with the error
columns and then atomically increments the attempt counter setting
`nextRetryAt = now + calculateRetryDelay(k+1)`; otherwise it writes state
failed with `failedAt = now` — leaving `nextRetryAt` untouched. -/
def MessageProcessor.handleError (payload : SQSMessagePayload)
    (e : WAErrorInfo) (elapsedMs now : Int) (s : Store) :
    Except String Store :=
  let attemptNumber := payload.attempt_number + 1
  let isRetryable := WhatsAppClient.isRetryableError e
  let s1 := DeliveryLogRepository.create
    { notificationId := payload.id
      attemptNumber := attemptNumber
      status := NotificationStatus.failed
      errorCode := e.errorCode.map (fun c => toString c)
      errorMessage := some e.message
      responseTimeMs := some elapsedMs } s
  if isRetryable && attemptNumber < payload.max_attempts then
    let retryDelay := calculateRetryDelay attemptNumber
    let nextRetryAt := now + retryDelay
    match NotificationRepository.updateStatus payload.id
        NotificationStatus.failed
        { errorCode := e.errorCode.map (fun c => toString c)
          errorMessage := some e.message } s1 with
    | Except.error msg => Except.error msg
    | Except.ok s2 =>
      NotificationRepository.incrementAttempt payload.id (some nextRetryAt) s2
  else
    NotificationRepository.updateStatus payload.id NotificationStatus.failed
      { errorCode := e.errorCode.map (fun c => toString c)
        errorMessage := some e.message
        failedAt := some now } s1

/-- Outcome of the outbound WhatsApp send, external to the store. -/
inductive SendOutcome where
  | success (messageId : Option String)
  | failure (e : WAErrorInfo)
  deriving DecidableEq, Repr

/-- `MessageProcessor.processMessage` (message processor, lines 28-73):
unconditionally writes state processing, performs the send, on success
writes state sent with `sentAt` and the provider message id and appends a
sent log row; every error thrown inside the try block — including the
database errors of the two status writes — is routed to `handleError`
against the store as committed so far. -/
def MessageProcessor.processMessage (payload : SQSMessagePayload)
    (outcome : SendOutcome) (elapsedMs now : Int) (s : Store) :
    Except String Store :=
  match NotificationRepository.updateStatus payload.id
      NotificationStatus.processing {} s with
  | Except.error msg =>
    MessageProcessor.handleError payload (dbErrorInfo msg) elapsedMs now s
  | Except.ok s1 =>
    match outcome with
    | SendOutcome.failure e =>
      MessageProcessor.handleError payload e elapsedMs now s1
    | SendOutcome.success messageId =>
      match NotificationRepository.updateStatus payload.id
          NotificationStatus.sent
          { whatsappMessageId := messageId, sentAt := some now } s1 with
      | Except.error msg =>
        MessageProcessor.handleError payload (dbErrorInfo msg) elapsedMs now s1
      | Except.ok s2 =>
        Except.ok (DeliveryLogRepository.create
          { notificationId := payload.id
            attemptNumber := payload.attempt_number + 1
            status := NotificationStatus.sent
            whatsappMessageId := messageId
            responseTimeMs := some elapsedMs } s2)

/-- A thrown JavaScript error as seen by the Fastify error handler: plain
`Error` values have no `statusCode` and no `code`; the `AppError` subclasses
in utils/errors.ts set both. -/
structure JsError where
  name : String := "Error"
  message : String
  statusCode : Option Nat := none
  code : Option String := none
  deriving DecidableEq, Repr

/-- `RateLimitError` from utils/errors.ts: an `AppError` with HTTP status
429 and code RATE_LIMIT_EXCEEDED.  It is defined in the repository but never
constructed by the ingestion path. -/
def RateLimitError (message : String) : JsError :=
  { name := "RateLimitError"
    message := message
    statusCode := some 429
    code := some "RATE_LIMIT_EXCEEDED" }

/-- The JSON body emitted by the global error handler
(errorHandler.ts lines 30-47); it has exactly these fields — in particular
no retryAfterSeconds field exists. -/
structure ErrorResponseBody where
  error : String
  message : String
  code : String
  traceId : String
  deriving DecidableEq, Repr

/-- The global Fastify error handler (errorHandler.ts): HTTP status is the
error's own `statusCode` or 500, and the body carries name, message, code
and the trace id (non-production branch). -/
def errorHandler (e : JsError) (traceId : String) : Nat × ErrorResponseBody :=
  (e.statusCode.getD 500,
    { error := e.name
      message := e.message
      code := e.code.getD "INTERNAL_ERROR"
      traceId := traceId })

/-- Validated recipient of a notification request (`recipientSchema`). -/
structure Recipient where
  phone_number : String
  country_code : Option String := none
  deriving DecidableEq, Repr

/-- A validated ingestion request (`NotificationRequest` from
notification.schema.ts); the opaque `metadata` blob is elided. -/
structure NotificationRequest where
  event_type : String
  recipient : Recipient
  template : Option TemplateMessage := none
  message : Option TextMessage := none
  priority : NotificationPriority := NotificationPriority.normal
  scheduled_for : Option Int := none
  deriving DecidableEq, Repr

/-- The record handed to `publishMessage` in sqs.service.ts; the JSON
`body` string is modelled as the payload value it serializes. -/
structure PublishRecord where
  id : String
  body : SQSMessagePayload
  deduplicationId : String
  deriving DecidableEq, Repr

/-- `createNotification` from the notification service (business logic
layer): check the recipient rate limit (limit hard-coded to 10) and throw a
plain `Error` when over it; create the row (state always queued); increment
the rate-limit window; publish the work item with `deduplicationId = id`;
return `{id, status: 'queued'}` — unconditionally, whatever
`scheduled_for` holds. -/
def createNotification (request : NotificationRequest) (apiKey : String)
    (notificationId traceId : String) (now : Int) (s : Store)
    (queue : List PublishRecord) :
    Except JsError ((String × String) × Store × List PublishRecord) :=
  if RateLimitRepository.checkLimit request.recipient.phone_number 10 now s then
    let created := NotificationRepository.create
      { id := notificationId
        tenantId := apiKey
        eventType := request.event_type
        recipientPhone := request.recipient.phone_number
        recipientCountryCode := request.recipient.country_code
        template := request.template
        message := request.message
        priority := request.priority
        scheduledFor := request.scheduled_for
        traceId := traceId } s
    let n := created.fst
    let s1 := created.snd
    let s2 := RateLimitRepository.increment request.recipient.phone_number now s1
    let payload : SQSMessagePayload :=
      { id := n.id
        event_type := n.eventType
        phone_number := n.recipientPhone
        country_code := n.recipientCountryCode
        template := n.template
        message := n.message
        priority := n.priority
        attempt_number := 0
        max_attempts := 5
        scheduled_for := n.scheduledFor
        trace_id := n.traceId
        tenant_id := n.tenantId }
    Except.ok ((notificationId, "queued"), s2,
      queue ++ [{ id := notificationId
                  body := payload
                  deduplicationId := notificationId }])
  else
    Except.error { message := "Rate limit exceeded" }

/-- A provider error attached to a failed status callback entry. -/
structure CallbackError where
  code : Nat
  title : String
  deriving DecidableEq, Repr

/-- One entry of a provider status callback batch: the provider-assigned
WhatsApp message id, the status string, the provider timestamp in epoch
seconds, and optional errors (webhooks.ts `processStatusUpdates`). -/
structure StatusEntry where
  id : String
  status : String
  timestamp : Int
  errors : List CallbackError := []
  deriving DecidableEq, Repr

/-- `new Date(parseInt(status.timestamp) * 1000)`. -/
def statusEntryMs (e : StatusEntry) : Int := e.timestamp * 1000

/-- The body of one iteration of the per-status loop in
`processStatusUpdates` (webhooks.ts lines 75-126): look the notification up
with `findById` applied to the provider message id, drop the entry when
nothing is found, otherwise write the callback's state with its timestamp
and append a delivery-log row.  `dbFail` injects a database write failure
for the entry (the thrown error the surrounding catch must absorb). -/
def processStatusUpdateOnce (dbFail : StatusEntry → Bool) (s : Store)
    (e : StatusEntry) : Except String Store :=
  match NotificationRepository.findById e.id s with
  | none => Except.ok s
  | some n =>
    let chosen : Option (NotificationStatus × StatusUpdates) :=
      match e.status with
      | "sent" => some (NotificationStatus.sent,
          { sentAt := some (statusEntryMs e) })
      | "delivered" => some (NotificationStatus.delivered,
          { deliveredAt := some (statusEntryMs e) })
      | "read" => some (NotificationStatus.read,
          { readAt := some (statusEntryMs e) })
      | "failed" => some (NotificationStatus.failed,
          { failedAt := some (statusEntryMs e)
            errorCode := (e.errors.head?).map (fun er => toString er.code)
            errorMessage := (e.errors.head?).map (fun er => er.title) })
      | _ => none
    let newStatus := (chosen.map (fun p => p.fst)).getD n.status
    let updates := (chosen.map (fun p => p.snd)).getD {}
    if dbFail e then
      Except.error "database error"
    else
      match NotificationRepository.updateStatus n.id newStatus updates s with
      | Except.error msg => Except.error msg
      | Except.ok s1 =>
        Except.ok (DeliveryLogRepository.create
          { notificationId := n.id
            attemptNumber := n.attemptNumber
            status := newStatus
            whatsappMessageId := some e.id
            errorCode := updates.errorCode
            errorMessage := updates.errorMessage } s1)

/-- `processStatusUpdates`: the loop over status entries; every error an
iteration raises is caught, logged and the loop continues with the store as
it was before that entry. -/
def processStatusUpdates (dbFail : StatusEntry → Bool)
    (entries : List StatusEntry) (s : Store) : Store :=
  entries.foldl (fun acc e =>
    match processStatusUpdateOnce dbFail acc e with
    | Except.ok s2 => s2
    | Except.error _ => acc) s

/-- `processIncomingMessages` only logs; it never touches the store. -/
def processIncomingMessages (s : Store) : Store := s

/-- One element of `entry[].changes[]` in the provider webhook body. -/
structure WebhookChange where
  statuses : List StatusEntry := []
  hasMessages : Bool := false
  deriving DecidableEq, Repr

/-- One element of `entry[]` in the provider webhook body. -/
structure WebhookEntry where
  changes : List WebhookChange := []
  deriving DecidableEq, Repr

/-- The parsed POST body of the provider webhook. -/
structure WebhookBody where
  object : String
  entry : List WebhookEntry := []
  deriving DecidableEq, Repr

/-- The POST /v1/webhooks/whatsapp handler (webhooks.ts lines 34-59): when
the body's object is whatsapp_business_account it walks every entry and
change, processing status batches and incoming messages; it replies 200
with `{success:true}`; the 500 branch is reachable only from an error
thrown outside the per-status loop. -/
def webhookPost (body : WebhookBody) (dbFail : StatusEntry → Bool)
    (s : Store) : (Nat × Bool) × Store :=
  if body.object == "whatsapp_business_account" then
    let s2 := body.entry.foldl (fun acc en =>
      en.changes.foldl (fun acc2 ch =>
        let acc3 := processStatusUpdates dbFail ch.statuses acc2
        if ch.hasMessages then processIncomingMessages acc3 else acc3) acc) s
    ((200, true), s2)
  else
    ((200, true), s)

/-- A decimal digit, `\d` of the validation regex. -/
def isDigitChar (c : Char) : Bool := '0' ≤ c && c ≤ '9'

/-- Operational matcher for the E.164 regex of `recipientSchema`
(notification.schema.ts line 8): consume a leading plus, a nonzero digit,
then count trailing digits, accepting 1 to 14 of them. -/
def countDigitsFromStart : List Char → Option Nat
  | [] => some 0
  | c :: cs =>
    if isDigitChar c then
      (countDigitsFromStart cs).map (fun k => k + 1)
    else
      none

/-- The `phone_number` field check of `recipientSchema`: a zod string
constrained by the regex written in the source. -/
def recipientPhoneAccepts (s : String) : Bool :=
  match s.data with
  | [] => false
  | c0 :: rest0 =>
    if c0 = '+' then
      match rest0 with
      | [] => false
      | c :: rest =>
        ('1' ≤ c && c ≤ '9')
          && (match countDigitsFromStart rest with
              | some k => 1 ≤ k && k ≤ 14
              | none => false)
    else false

/-- Spec-side overlap test of §4.C2: a stored window `[windowStart,
windowEnd]` overlaps the sliding interval `[now − 1h, now]`. -/
def windowOverlapsSliding (w : RateLimit) (now : Int) : Bool :=
  decide (w.windowStart ≤ now) && decide (now - oneHourMs ≤ w.windowEnd)

/-- Spec-side admission predicate, following the specification's words:
admit exactly when the sum of `message_count` across this recipient's
windows overlapping `[now − 1h, now]` is strictly below the limit. -/
def slidingWindowAdmits (recipientPhone : String) (limitPerHour : Nat)
    (now : Int) (s : Store) : Bool :=
  decide ((((s.rateLimits.filter (fun w =>
      w.recipientPhone == recipientPhone && windowOverlapsSliding w now)).map
        (fun w => w.messageCount)).sum) < limitPerHour)

/-- Message count of this recipient's windows whose start is the current
hour boundary. -/
def currentHourCount (recipientPhone : String) (now : Int) (s : Store) : Nat :=
  ((s.rateLimits.filter (fun w =>
      w.recipientPhone == recipientPhone
        && decide (w.windowStart = hourFloor now))).map
    (fun w => w.messageCount)).sum

/-- Every stored window is an hour-aligned one-hour bucket that has already
started — the shape `RateLimitRepository.increment` creates. -/
def hourAlignedWindows (now : Int) (s : Store) : Prop :=
  ∀ w ∈ s.rateLimits,
    w.windowStart % oneHourMs = 0 ∧
    w.windowEnd = w.windowStart + oneHourMs ∧
    w.windowStart ≤ now

/-- The E.164 language of the regex in the specification: a plus sign, a
digit 1-9, then one to fourteen further decimal digits. -/
def IsE164 (s : String) : Prop :=
  ∃ (c : Char) (ds : List Char),
    s.data = '+' :: c :: ds ∧
    '1' ≤ c ∧ c ≤ '9' ∧
    1 ≤ ds.length ∧ ds.length ≤ 14 ∧
    ∀ d ∈ ds, '0' ≤ d ∧ d ≤ '9'


/-- Fixture for claim C3: a sent notification whose provider message id is
wamid.X while its primary key is a UUID. -/
def callbackTargetNotification : Notification :=
  { id := "3f9a0d2e-5b1c-4f6a-8d7e-9c0b1a2d3e4f"
    tenantId := "tenant-1"
    eventType := "order.placed"
    recipientPhone := "+14155552671"
    status := NotificationStatus.sent
    whatsappMessageId := some "wamid.X"
    sentAt := some 1000 }

/-- Fixture for claim C3: the store holding only that notification. -/
def callbackTargetStore : Store :=
  { notifications := [callbackTargetNotification] }

/-- Fixture for claims C2 and C7: a notification already advanced past
sending (used to exercise transitions out of sent/read states). -/
def readStateNotification : Notification :=
  { id := "n1"
    tenantId := "tenant-1"
    eventType := "order.placed"
    recipientPhone := "+14155552671"
    status := NotificationStatus.read }

/-- Fixture for claim C7: a sent notification whose primary key equals the
provider message id, so the webhook lookup finds it. -/
def sentWamidNotification : Notification :=
  { id := "wamid.1"
    tenantId := "tenant-1"
    eventType := "order.placed"
    recipientPhone := "+14155552671"
    status := NotificationStatus.sent
    sentAt := some 1000
    whatsappMessageId := some "wamid.1" }

/-- Fixture for claim C6: a notification whose earlier transient failure
left next_retry_at = 50000 and attempt counter 1. -/
def transientlyFailedNotification : Notification :=
  { id := "n1"
    tenantId := "tenant-1"
    eventType := "order.placed"
    recipientPhone := "+14155552671"
    status := NotificationStatus.failed
    attemptNumber := 1
    nextRetryAt := some 50000 }

/-- Fixture for claim C4: a store whose current-hour window (at
now = 7260000 ms) already holds 10 messages for the recipient. -/
def saturatedRateLimitStore : Store :=
  { rateLimits := [{ recipientPhone := "+14155552671"
                     windowStart := 7200000
                     windowEnd := 10800000
                     messageCount := 10 }] }

/-- Fixture for claim C5: a store holding only the previous-hour window
(relative to now = 5400000 ms) with 10 messages. -/
def previousHourWindowStore : Store :=
  { rateLimits := [{ recipientPhone := "+14155552671"
                     windowStart := 0
                     windowEnd := 3600000
                     messageCount := 10 }] }

/-- Claim C1 counterexample: a valid request whose scheduled_for lies in the
future (now = 1000000 ms, scheduled_for = 1120000 ms) is persisted with
state queued — not scheduled — a work item IS enqueued, and the returned
pair reports state queued. -/
theorem createNotification_future_schedule_still_queued :
    (createNotification
      { event_type := "order.placed"
        recipient := { phone_number := "+14155552671" }
        template := some { name := "order_confirmation", language := "en" }
        scheduled_for := some 1120000 }
      "tenant-1" "id-1" "trace-1" 1000000 {} []).toOption.map
        (fun r => (r.fst.snd,
          r.snd.fst.notifications.map (fun n => (n.status, n.scheduledFor)),
          (r.snd.snd).length))
      = some ("queued", [(NotificationStatus.queued, some 1120000)], 1) := by
  decide

/-- Claim C2 counterexample: a notification in the terminal state read is
pushed through the processor without any rejection — the transition to
processing is applied (no IllegalTransition exists anywhere in the code)
and the run finishes in state sent. -/
theorem processMessage_from_read_not_rejected :
    (MessageProcessor.processMessage { id := "n1" }
      (SendOutcome.success (some "wamid.9")) 5 1000
      { notifications := [readStateNotification] }).toOption.map
        (fun s2 => s2.notifications.map (fun n => n.status))
      = some [NotificationStatus.sent] := by
  decide

/-- Claim C3, the code evaluated at the failing input: a delivered callback
carrying provider message id wamid.X is dropped (the store is returned
unchanged) even though a notification with provider_message_id wamid.X
exists, because the handler looks it up with `findById` — a primary-key
query — instead of a query on the whatsappMessageId column. -/
theorem callback_lookup_uses_primary_key :
    (processStatusUpdateOnce (fun _ => false) callbackTargetStore
        { id := "wamid.X", status := "delivered", timestamp := 1700000000 }).toOption
      = some callbackTargetStore
    ∧ callbackTargetNotification.whatsappMessageId = some "wamid.X"
    ∧ callbackTargetNotification.deliveredAt = none
    ∧ callbackTargetNotification.status ≠ NotificationStatus.delivered := by
  refine ⟨?_, rfl, rfl, ?_⟩ <;> decide

/-- Claim C4, the code evaluated at the failing input: with the current-hour
window already holding 10 messages for the recipient, createNotification
raises a plain Error without a statusCode, which the global error handler
surfaces as HTTP 500 — not 429 — and the response body type carries no
retryAfterSeconds; the RateLimitError class that would carry 429 exists in
utils/errors.ts but is never raised.  No notification row is created. -/
theorem rate_limited_request_surfaces_500 :
    (createNotification
        { event_type := "order.placed"
          recipient := { phone_number := "+14155552671" }
          message := some { text := "hello" } }
        "tenant-1" "id-9" "trace-9" 7260000 saturatedRateLimitStore []).toOption
      = none
    ∧ (errorHandler { message := "Rate limit exceeded" } "req-1").fst = 500
    ∧ (RateLimitError "Rate limit exceeded").statusCode = some 429 := by
  refine ⟨?_, rfl, rfl⟩
  decide

/-- Claim C5 counterexample: at now = 5400000 ms the previous-hour window
[0, 3600000] with 10 messages overlaps the sliding interval
[now − 1h, now] = [1800000, 5400000], so the spec-side sliding predicate
denies admission at limit 10, yet checkLimit admits — its filter
(windowEnd > now and windowStart > now − 1h) excludes the previous-hour
window. -/
theorem checkLimit_ignores_previous_hour_window :
    RateLimitRepository.checkLimit "+14155552671" 10 5400000
        previousHourWindowStore = true
    ∧ slidingWindowAdmits "+14155552671" 10 5400000
        previousHourWindowStore = false := by
  refine ⟨?_, ?_⟩ <;> decide

/-- Claim C6, the code evaluated at the failing input: a PermanentError
(HTTP 400, provider code 131026) on attempt 2 of a notification that
carries next_retry_at = 50000 from an earlier transient failure produces a
failed row with failed_at set but next_retry_at STILL set — the permanent
branch of handleError never clears it — so the supposedly permanently
failed notification still satisfies the findReadyForRetry predicate and
will be picked up by the retry sweeper again. -/
theorem permanent_failure_keeps_next_retry_at :
    (MessageProcessor.processMessage
        { id := "n1", attempt_number := 1, max_attempts := 5 }
        (SendOutcome.failure { responseStatus := some 400
                               errorCode := some 131026
                               message := "Invalid phone number" })
        5 100000
        { notifications := [transientlyFailedNotification] }).toOption.map
      (fun s2 => s2.notifications.map
        (fun m => (m.status, m.failedAt, m.nextRetryAt, readyForRetry 100000 m)))
      = some [(NotificationStatus.failed, some 100000, some 50000, true)] := by
  decide

/-- Claim C7 counterexample: with a sent notification (primary key equal to
the provider id, so the handler's lookup succeeds), callbacks read (t = 300)
then delivered (t = 200) leave the final state delivered — the handler set
the state unconditionally from the later callback, moving it backward from
read — although both timestamps were set independently. -/
theorem out_of_order_callback_moves_state_backward :
    (processStatusUpdates (fun _ => false)
        [{ id := "wamid.1", status := "read", timestamp := 300 },
         { id := "wamid.1", status := "delivered", timestamp := 200 }]
        { notifications := [sentWamidNotification] }).notifications.map
      (fun m => (m.status, m.deliveredAt, m.readAt))
      = [(NotificationStatus.delivered, some 200000, some 300000)] := by
  decide

/-- Incrementing a rate-limit window never touches the notifications
table. -/
theorem increment_preserves_notifications (p : String) (now : Int)
    (s : Store) :
    (RateLimitRepository.increment p now s).notifications = s.notifications := by
  unfold RateLimitRepository.increment
  dsimp only
  split <;> rfl

/-- Claim C2 (amended): no mutator checks a state-machine predicate —
whenever a notification with the target id exists, updateStatus succeeds
(it can never reject a transition, and no IllegalTransition error exists)
and every row with that id afterwards carries exactly the requested state,
whatever state it held before; in particular the processor's write of
processing is applied from any current state, and re-writing processing
over processing is a no-op only because the same value is stored again. -/
theorem updateStatus_writes_unconditionally :
    ∀ (s : Store) (id : String) (status : NotificationStatus)
      (u : StatusUpdates),
      (∃ n ∈ s.notifications, n.id = id) →
      ∃ s2, NotificationRepository.updateStatus id status u s = Except.ok s2 ∧
        ∀ n2 ∈ s2.notifications, n2.id = id → n2.status = status := by
  intro s id status u h
  obtain ⟨n, hn, hid⟩ := h
  have hany : s.notifications.any (fun m => m.id == id) = true :=
    List.any_eq_true.mpr ⟨n, hn, by simp [hid]⟩
  refine ⟨{ s with notifications :=
      s.notifications.map (fun m =>
        if m.id == id then applyStatusUpdates m status u else m) }, ?_, ?_⟩
  · unfold NotificationRepository.updateStatus
    rw [hany]
    simp
  · intro n2 hn2 hid2
    rcases List.mem_map.mp hn2 with ⟨m, hm, he⟩
    cases hmid : (m.id == id) with
    | true =>
      rw [hmid] at he
      simp at he
      rw [← he]
      rfl
    | false =>
      rw [hmid] at he
      simp at he
      rw [← he] at hid2
      simp [hid2] at hmid

/-- Witness for claim C2's amended theorem: the read-state notification is
updated to processing without rejection. -/
theorem updateStatus_writes_unconditionally_witness :
    ∃ s2, NotificationRepository.updateStatus "n1"
        NotificationStatus.processing {}
        { notifications := [readStateNotification] } = Except.ok s2 ∧
      ∀ n2 ∈ s2.notifications, n2.id = "n1" →
        n2.status = NotificationStatus.processing :=
  updateStatus_writes_unconditionally
    { notifications := [readStateNotification] } "n1"
    NotificationStatus.processing {}
    ⟨readStateNotification, by simp, rfl⟩

/-- Claim C1 (amended): for every request admitted by the rate-limit check
— with or without a future scheduled_for — createNotification persists the
notification with state queued, enqueues exactly one work item whose
deduplication id is the notification id, and returns the pair
(id, "queued"); the scheduled_for value is stored but never consulted for
the initial state. -/
theorem createNotification_always_queued :
    ∀ (request : NotificationRequest) (apiKey notificationId traceId : String)
      (now : Int) (s : Store) (queue : List PublishRecord),
      RateLimitRepository.checkLimit request.recipient.phone_number 10 now s
        = true →
      ∃ (n : Notification) (s2 : Store) (item : PublishRecord),
        createNotification request apiKey notificationId traceId now s queue
          = Except.ok ((notificationId, "queued"), s2, queue ++ [item]) ∧
        s2.notifications = s.notifications ++ [n] ∧
        n.id = notificationId ∧
        n.status = NotificationStatus.queued ∧
        n.scheduledFor = request.scheduled_for ∧
        item.deduplicationId = notificationId ∧
        item.body.id = notificationId ∧
        item.body.scheduled_for = request.scheduled_for := by
  intro request apiKey nid tid now s queue hcheck
  unfold createNotification
  rw [hcheck]
  refine ⟨_, _, _, rfl,
    by rw [increment_preserves_notifications]; exact rfl,
    rfl, rfl, rfl, rfl, rfl, rfl⟩

/-- Witness for claim C1's amended theorem: an admitted request against the
empty store. -/
theorem createNotification_always_queued_witness :
    ∃ (n : Notification) (s2 : Store) (item : PublishRecord),
      createNotification
          { event_type := "order.placed"
            recipient := { phone_number := "+14155552671" }
            message := some { text := "hello" }
            scheduled_for := some 1120000 }
          "tenant-1" "id-1" "trace-1" 1000000 {} []
        = Except.ok (("id-1", "queued"), s2, [] ++ [item]) ∧
      s2.notifications = Store.notifications {} ++ [n] ∧
      n.id = "id-1" ∧
      n.status = NotificationStatus.queued ∧
      n.scheduledFor = some 1120000 ∧
      item.deduplicationId = "id-1" ∧
      item.body.id = "id-1" ∧
      item.body.scheduled_for = some 1120000 :=
  createNotification_always_queued
    { event_type := "order.placed"
      recipient := { phone_number := "+14155552671" }
      message := some { text := "hello" }
      scheduled_for := some 1120000 }
    "tenant-1" "id-1" "trace-1" 1000000 {} [] (by decide)

/-- For an hour-aligned one-hour window that has already started, the
checkLimit filter condition is satisfied exactly by the current hour's
window. -/
theorem aligned_window_filter_eq (w : RateLimit) (now : Int)
    (h1 : w.windowStart % oneHourMs = 0)
    (h2 : w.windowEnd = w.windowStart + oneHourMs)
    (h3 : w.windowStart ≤ now) :
    (decide (w.windowEnd > now) && decide (w.windowStart > now - oneHourMs))
      = decide (w.windowStart = hourFloor now) := by
  rw [← Bool.decide_and, decide_eq_decide]
  unfold hourFloor oneHourMs at *
  omega

/-- Claim C5 (amended): over stores whose windows are the hour-aligned
one-hour buckets that increment creates (already started at `now`),
checkLimit admits exactly when the message count of the CURRENT hour's
window is below the limit — a fixed-window check: the filter
`windowEnd > now` and `windowStart > now − 1h` excludes every
previous-hour window, so a still-stored previous-hour bucket that
partially overlaps the sliding interval never counts. -/
theorem checkLimit_counts_only_current_hour :
    ∀ (recipientPhone : String) (limitPerHour : Nat) (now : Int) (s : Store),
      hourAlignedWindows now s →
      (RateLimitRepository.checkLimit recipientPhone limitPerHour now s = true
        ↔ currentHourCount recipientPhone now s < limitPerHour) := by
  intro phone limit now s haligned
  unfold RateLimitRepository.checkLimit currentHourCount
  have hfilter :
      s.rateLimits.filter (fun w =>
        w.recipientPhone == phone
          && decide (w.windowEnd > now)
          && decide (w.windowStart > now - oneHourMs))
      = s.rateLimits.filter (fun w =>
        w.recipientPhone == phone
          && decide (w.windowStart = hourFloor now)) := by
    apply List.filter_congr
    intro w hw
    obtain ⟨h1, h2, h3⟩ := haligned w hw
    cases hb : (w.recipientPhone == phone) with
    | false => simp [hb]
    | true => simp [hb, aligned_window_filter_eq w now h1 h2 h3]
  dsimp only
  rw [hfilter]
  simp

/-- Witness for claim C5's amended theorem: a store holding one aligned
current-hour window with 3 messages, checked at limit 10. -/
theorem checkLimit_counts_only_current_hour_witness :
    RateLimitRepository.checkLimit "+14155552671" 10 3700000
        { rateLimits := [{ recipientPhone := "+14155552671"
                           windowStart := 3600000
                           windowEnd := 7200000
                           messageCount := 3 }] } = true
      ↔ currentHourCount "+14155552671" 3700000
        { rateLimits := [{ recipientPhone := "+14155552671"
                           windowStart := 3600000
                           windowEnd := 7200000
                           messageCount := 3 }] } < 10 :=
  checkLimit_counts_only_current_hour "+14155552671" 10 3700000
    { rateLimits := [{ recipientPhone := "+14155552671"
                       windowStart := 3600000
                       windowEnd := 7200000
                       messageCount := 3 }] }
    (by intro w hw; simp at hw; rw [hw]; refine ⟨by decide, by decide, by decide⟩)

/-- Claim C7 (amended): the handler sets each timestamp independently but
writes each callback's state unconditionally — there is no monotonic
choice along sent → delivered → read.  For ANY notification the webhook
lookup finds, processing read (provider time t1) then delivered (provider
time t2) ends with read_at = t1·1000 and delivered_at = t2·1000 both set
but final state delivered: the later delivered callback moves the state
backward from read. -/
theorem callback_read_then_delivered_ends_delivered :
    ∀ (n : Notification) (t1 t2 : Int) (logs : List DeliveryLog)
      (rl : List RateLimit),
      ((processStatusUpdates (fun _ => false)
          [{ id := n.id, status := "read", timestamp := t1 },
           { id := n.id, status := "delivered", timestamp := t2 }]
          { notifications := [n], deliveryLogs := logs,
            rateLimits := rl }).notifications.map
        (fun m => (m.status, m.deliveredAt, m.readAt)))
        = [(NotificationStatus.delivered, some (t2 * 1000), some (t1 * 1000))] := by
  intro n t1 t2 logs rl
  simp [processStatusUpdates, processStatusUpdateOnce,
        NotificationRepository.findById, NotificationRepository.updateStatus,
        DeliveryLogRepository.create, applyStatusUpdates, statusEntryMs,
        List.find?]

/-- Claim C8 counterexample: no retry-delay function of the claimed shape
min(base · 2^k + jitter, 3600 s) with base 1 s and jitter within ±25% of
the exponential term can satisfy the repository's own calculateRetryDelay
unit tests — at attempt 10 the formula yields at least 384000 ms, but the
tests require at most 60000 ms. -/
theorem spec_retry_formula_contradicts_unit_tests :
    ¬ ∃ jitter : Nat → Int,
      (∀ n, 1 ≤ n → specJitterWithin n (jitter n)) ∧
      satisfiesRetryUnitTests (fun n => specRetryDelay n (jitter n)) := by
  rintro ⟨j, hj, ht⟩
  have h10 : specRetryDelay 10 (j 10) ≤ 60000 := ht.2.2.2.2.1
  have hw : specJitterWithin 10 (j 10) := hj 10 (by norm_num)
  unfold specRetryDelay at h10
  unfold specJitterWithin at hw
  norm_num at h10 hw
  have habs := abs_le.mp (by linarith : |j 10| ≤ 128000)
  linarith [habs.1]

/-- Claim C8 (amended): the retry delay, as pinned by the repository's unit
tests, is min(1000 · 2^(n−1), 60000) ms for attempt ordinal n — a 1 s base
doubling per attempt with NO jitter and a 60 s cap (not the specified
3600 s) — and on a retryable failure with budget remaining the processor
stores next_retry_at = now + calculateRetryDelay(k+1) while incrementing
the attempt counter. -/
theorem calculateRetryDelay_follows_unit_tests :
    satisfiesRetryUnitTests calculateRetryDelay ∧
    ∀ (n : Notification) (payload : SQSMessagePayload) (e : WAErrorInfo)
      (elapsedMs now : Int) (logs : List DeliveryLog) (rl : List RateLimit),
      n.id = payload.id →
      WhatsAppClient.isRetryableError e = true →
      payload.attempt_number + 1 < payload.max_attempts →
      ∃ s2, MessageProcessor.handleError payload e elapsedMs now
          { notifications := [n], deliveryLogs := logs, rateLimits := rl }
        = Except.ok s2 ∧
        s2.notifications.map
            (fun m => (m.status, m.nextRetryAt, m.attemptNumber))
          = [(NotificationStatus.failed,
              some (now + calculateRetryDelay (payload.attempt_number + 1)),
              n.attemptNumber + 1)] ∧
        s2.deliveryLogs.length = logs.length + 1 := by
  constructor
  · exact ⟨by decide, by decide, by decide, by decide, by decide, by decide⟩
  · intro n payload e el now logs rl hid hre hlt
    have hbeq : (n.id == payload.id) = true := by simp [hid]
    unfold MessageProcessor.handleError
    simp [hre, hlt, hid, NotificationRepository.updateStatus,
          NotificationRepository.incrementAttempt,
          DeliveryLogRepository.create, applyStatusUpdates, hbeq]

/-- Witness for claim C8's amended theorem: a retryable 503 on attempt 2 of
the transiently failed notification schedules the next retry at
now + calculateRetryDelay 2 = 100000 + 2000. -/
theorem calculateRetryDelay_follows_unit_tests_witness :
    satisfiesRetryUnitTests calculateRetryDelay ∧
    ∃ s2, MessageProcessor.handleError
        { id := "n1", attempt_number := 1, max_attempts := 5 }
        { responseStatus := some 503, errorCode := none,
          message := "Service Unavailable" }
        5 100000
        { notifications := [transientlyFailedNotification]
          deliveryLogs := []
          rateLimits := [] }
      = Except.ok s2 ∧
      s2.notifications.map
          (fun m => (m.status, m.nextRetryAt, m.attemptNumber))
        = [(NotificationStatus.failed, some (100000 + calculateRetryDelay 2),
            transientlyFailedNotification.attemptNumber + 1)] ∧
      s2.deliveryLogs.length = List.length ([] : List DeliveryLog) + 1 :=
  ⟨calculateRetryDelay_follows_unit_tests.1,
    calculateRetryDelay_follows_unit_tests.2
      transientlyFailedNotification
      { id := "n1", attempt_number := 1, max_attempts := 5 }
      { responseStatus := some 503, errorCode := none,
        message := "Service Unavailable" }
      5 100000 [] [] rfl (by decide) (by decide)⟩

/-- Every list of digit characters is counted in full by the matcher's
digit scanner, and any offending character aborts it. -/
theorem countDigitsFromStart_eq (cs : List Char) :
    countDigitsFromStart cs =
      if cs.all isDigitChar then some cs.length else none := by
  induction cs with
  | nil => rfl
  | cons c cs ih =>
    unfold countDigitsFromStart
    cases hc : isDigitChar c with
    | false => simp [hc]
    | true => simp [hc, ih]

/-- Claim C9: the recipient phone-number validation accepts a string
exactly when it lies in the E.164 language of the schema's regex — a plus
sign, then a digit 1-9, then one to fourteen further decimal digits —
and rejects every other string. -/
theorem recipientPhoneAccepts_iff_isE164 (s : String) :
    recipientPhoneAccepts s = true ↔ IsE164 s := by
  constructor
  · intro h
    unfold recipientPhoneAccepts at h
    rcases hd : s.data with _ | ⟨c0, rest0⟩ <;> rw [hd] at h
    · simp at h
    · dsimp only at h
      by_cases hc0 : c0 = '+'
      · rw [if_pos hc0] at h
        subst hc0
        rcases rest0 with _ | ⟨c, rest⟩
        · simp at h
        · dsimp only at h
          rcases hcd : countDigitsFromStart rest with _ | k <;> rw [hcd] at h
          · simp at h
          · simp only [Bool.and_eq_true, decide_eq_true_eq] at h
            obtain ⟨⟨h1, h2⟩, h3, h4⟩ := h
            have hall := countDigitsFromStart_eq rest
            rw [hcd] at hall
            by_cases hda : rest.all isDigitChar = true
            · rw [if_pos hda] at hall
              obtain hk := Option.some.inj hall
              refine ⟨c, rest, by rw [hd], h1, h2, by omega, by omega, ?_⟩
              intro d hdm
              have := List.all_eq_true.mp hda d hdm
              unfold isDigitChar at this
              simp only [Bool.and_eq_true, decide_eq_true_eq] at this
              exact this
            · rw [if_neg hda] at hall
              exact absurd hall (by simp)
      · rw [if_neg hc0] at h
        simp at h
  · rintro ⟨c, ds, hdata, h1, h2, h3, h4, h5⟩
    unfold recipientPhoneAccepts
    rw [hdata]
    dsimp only
    rw [if_pos rfl]
    have hall : ds.all isDigitChar = true := by
      apply List.all_eq_true.mpr
      intro d hdm
      unfold isDigitChar
      simp only [Bool.and_eq_true, decide_eq_true_eq]
      exact h5 d hdm
    have hcd : countDigitsFromStart ds = some ds.length := by
      rw [countDigitsFromStart_eq, if_pos hall]
    rw [hcd]
    simp only [Bool.and_eq_true, decide_eq_true_eq]
    exact ⟨⟨h1, h2⟩, h3, h4⟩

/-- When every database write is failing, each iteration of the per-status
loop leaves the store exactly as it was. -/
theorem processStatusUpdates_all_writes_fail (dbFail : StatusEntry → Bool)
    (hfail : ∀ e, dbFail e = true) :
    ∀ (entries : List StatusEntry) (s : Store),
      processStatusUpdates dbFail entries s = s := by
  intro entries
  induction entries with
  | nil => intro s; rfl
  | cons e es ih =>
    intro s
    unfold processStatusUpdates at ih ⊢
    rw [List.foldl_cons]
    have hstep :
        (match processStatusUpdateOnce dbFail s e with
          | Except.ok s2 => s2
          | Except.error _ => s) = s := by
      unfold processStatusUpdateOnce
      cases hf : NotificationRepository.findById e.id s with
      | none => simp
      | some n => simp [hfail e]
    rw [hstep]
    exact ih s

/-- Claim C10: for every POST provider-webhook body that parses as a
whatsapp_business_account payload, the handler responds 200 with
success true whatever the per-entry outcomes are — the per-status loop
catches every error raised inside it (here: injected database-write
failures on every entry, which also leave the store untouched) — so a 500
can only come from an error thrown outside that loop. -/
theorem webhookPost_catches_per_entry_errors :
    ∀ (body : WebhookBody) (dbFail : StatusEntry → Bool) (s : Store),
      body.object = "whatsapp_business_account" →
      (webhookPost body dbFail s).fst = (200, true) ∧
      ((∀ e, dbFail e = true) → (webhookPost body dbFail s).snd = s) := by
  intro body dbFail s hobj
  unfold webhookPost
  have hb : (body.object == "whatsapp_business_account") = true := by
    simp [hobj]
  rw [hb]
  simp only [if_true]
  constructor
  · trivial
  · intro hfail
    have hchange : ∀ (chs : List WebhookChange) (acc : Store),
        chs.foldl (fun acc2 ch =>
          let acc3 := processStatusUpdates dbFail ch.statuses acc2
          if ch.hasMessages then processIncomingMessages acc3 else acc3) acc
          = acc := by
      intro chs
      induction chs with
      | nil => intro acc; rfl
      | cons ch chs ihc =>
        intro acc
        rw [List.foldl_cons]
        have : (let acc3 := processStatusUpdates dbFail ch.statuses acc
            if ch.hasMessages then processIncomingMessages acc3 else acc3)
            = acc := by
          dsimp only
          rw [processStatusUpdates_all_writes_fail dbFail hfail]
          unfold processIncomingMessages
          split <;> rfl
        rw [this]
        exact ihc acc
    have houter : ∀ (ens : List WebhookEntry) (acc : Store),
        ens.foldl (fun acc en =>
          en.changes.foldl (fun acc2 ch =>
            let acc3 := processStatusUpdates dbFail ch.statuses acc2
            if ch.hasMessages then processIncomingMessages acc3 else acc3) acc)
          acc = acc := by
      intro ens
      induction ens with
      | nil => intro acc; rfl
      | cons en ens ihe =>
        intro acc
        rw [List.foldl_cons, hchange en.changes acc]
        exact ihe acc
    exact houter body.entry s

/-- Witness for claim C10: a payload with one unknown status entry against
the C3 fixture store, with every database write failing, still yields 200
and leaves the store unchanged. -/
theorem webhookPost_catches_per_entry_errors_witness :
    (webhookPost
        { object := "whatsapp_business_account"
          entry := [{ changes := [{ statuses :=
            [{ id := "wamid.X", status := "delivered", timestamp := 5 }] }] }] }
        (fun _ => true) callbackTargetStore).fst = (200, true) ∧
    ((∀ e, (fun (_ : StatusEntry) => true) e = true) →
      (webhookPost
        { object := "whatsapp_business_account"
          entry := [{ changes := [{ statuses :=
            [{ id := "wamid.X", status := "delivered", timestamp := 5 }] }] }] }
        (fun _ => true) callbackTargetStore).snd = callbackTargetStore) :=
  webhookPost_catches_per_entry_errors
    { object := "whatsapp_business_account"
      entry := [{ changes := [{ statuses :=
        [{ id := "wamid.X", status := "delivered", timestamp := 5 }] }] }] }
    (fun _ => true) callbackTargetStore rfl
